import Mathlib

/-!
Verification of the ERA5-To-SHETRAN repository (two near-duplicate scripts,
`ERA5-To-SHETRAN.py` and `ERA5-Land-To-SHETRAN.py`).

The scripts are straight-line batch pipelines:
open a NetCDF file, build an absolute datetime index from the file's
relative hourly time encoding ("hours since 1900-01-01 00:00:00"),
plot a diagnostic, reformat the gridded data into a SHETRAN table, close
the file.

Embedding choices:
* pandas timestamps are embedded as `Nat` seconds since 0001-01-01 00:00:00
  in the proleptic Gregorian calendar; `timestampOf y m d h` converts a
  calendar date to that representation.
* `pd.date_range(start, end, freq = H)` is `dateRangeHourly`.
* `ERA5DateIndex.loc[t][0]` (positional label lookup on a RangeIndex
  DataFrame, raising `KeyError` out of range) is `resolveTime`, returning
  `Option Nat`.
* the `TimeIndex` accumulation loop is `buildTimeIndex` (a fold that
  appends, failing if any lookup fails), with per-iteration state
  `ResolverState` / `resolveStep` for the hyperproperty claims.
* `DfTimeIndex.index[DfTimeIndex[dateTime] == T].tolist()[0]`
  (boolean-mask the row positions, take the first, `IndexError` if the
  mask is empty) is `boundaryIdx`.
* the script-level control flow (uncaught exceptions abort the rest of the
  straight-line script) is the event-trace function `scriptRun`.
-/

namespace ERA5ToSHETRAN

/-- Gregorian leap-year test. -/
def isLeap (y : Nat) : Bool :=
  (y % 4 == 0 && y % 100 != 0) || y % 400 == 0

/-- Days from 1 January to the first day of month `m` (1-based) in a year
whose leap status is `leap`. -/
def daysBeforeMonth (leap : Bool) (m : Nat) : Nat :=
  (match m with
   | 1 => 0 | 2 => 31 | 3 => 59 | 4 => 90 | 5 => 120 | 6 => 151
   | 7 => 181 | 8 => 212 | 9 => 243 | 10 => 273 | 11 => 304 | _ => 334)
  + (if leap && 2 < m then 1 else 0)

/-- Days from 0001-01-01 to the first day of year `y` (proleptic
Gregorian). -/
def daysBeforeYear (y : Nat) : Nat :=
  (y - 1) * 365 + (y - 1) / 4 - (y - 1) / 100 + (y - 1) / 400

/-- The timestamp `y-m-d h:00:00` as seconds since 0001-01-01 00:00:00.
This is the embedding of a pandas `Timestamp` (pandas performs exact
proleptic-Gregorian calendar arithmetic). -/
def timestampOf (y m d h : Nat) : Nat :=
  (daysBeforeYear y + daysBeforeMonth (isLeap y) m + (d - 1)) * 86400 + h * 3600

/-- `pd.date_range(start, end, freq = H)`: the hourly timestamps from
`start` up to `stop` inclusive (the largest entry is the last
`start + i * 3600` that does not exceed `stop`). -/
def dateRangeHourly (start stop : Nat) : List Nat :=
  (List.range ((stop - start) / 3600 + 1)).map (fun i => start + i * 3600)

/-- The ERA5 time encoding's epoch, 1900-01-01 00:00:00. -/
def epoch1900 : Nat := timestampOf 1900 1 1 0

/-- Upper bound of the reference calendar in `ERA5-To-SHETRAN.py`
(line 146): 2022-01-01 00:00:00. -/
def bound2022 : Nat := timestampOf 2022 1 1 0

/-- Upper bound of the reference calendar in `ERA5-Land-To-SHETRAN.py`
(line 154): 2030-01-01 00:00:00. -/
def bound2030 : Nat := timestampOf 2030 1 1 0

/-- `ERA5DateIndex` of `ERA5-To-SHETRAN.py` lines 145-147: the pre-built
hourly reference calendar from the epoch to 2022-01-01. -/
def ERA5DateIndex : List Nat := dateRangeHourly epoch1900 bound2022

/-- `ERA5DateIndex` of `ERA5-Land-To-SHETRAN.py` lines 153-155: the same
calendar but extending to 2030-01-01. -/
def ERA5DateIndexLand : List Nat := dateRangeHourly epoch1900 bound2030

/-- `ERA5DateIndex.loc[t][0]` (lines 154 / 162): positional label lookup of
row `t` in the reference calendar.  `pandas.DataFrame.loc` raises a
`KeyError` (a `LookupError`) when the label is absent, modelled as
`none`. -/
def resolveTime (cal : List Nat) (t : Nat) : Option Nat := cal[t]?

/-- One iteration of the `TimeIndex` loop: resolve `t` against the
calendar and append the result to the accumulator (`TimeIndex.append`). -/
def timeStepFold (cal : List Nat) (acc : Option (List Nat)) (t : Nat) :
    Option (List Nat) :=
  acc.bind (fun l => (resolveTime cal t).map (fun ts => l ++ [ts]))

/-- The `TimeIndex` loop (lines 150-154 / 158-162): resolve every raw
time-step value of the file against the reference calendar, in order,
appending each resolved timestamp.  An out-of-calendar time-step raises,
modelled by the whole fold returning `none`. -/
def buildTimeIndex (cal : List Nat) (times : List Nat) : Option (List Nat) :=
  times.foldl (timeStepFold cal) (some [])

/-- State of the resolver while the `TimeIndex` loop runs: the reference
calendar (never written) and the accumulated `TimeIndex` list (appended
to). -/
structure ResolverState where
  cal : List Nat
  timeIndex : List Nat
deriving DecidableEq, Repr

/-- One stateful resolution step: look `t` up in the calendar, append the
resolved timestamp to the `TimeIndex` accumulator, and also return it. -/
def resolveStep (s : ResolverState) (t : Nat) : ResolverState × Option Nat :=
  match resolveTime s.cal t with
  | some ts => (⟨s.cal, s.timeIndex ++ [ts]⟩, some ts)
  | none => (s, none)

/-- `DfTimeIndex.index[DfTimeIndex[dateTime] == T].tolist()[0]`
(lines 163-164 / 171-172): the row positions whose entry equals `T`,
then the first of them.  `[0]` on an empty list raises an `IndexError`
(a `LookupError`), modelled as `none`. -/
def boundaryIdx (dfTimeIndex : List Nat) (t : Nat) : Option Nat :=
  ((List.range dfTimeIndex.length).filter
    (fun i => dfTimeIndex[i]? == some t)).head?

/-- The pipeline stages of either script, in source order:
open the NetCDF file (line 137 / 146), interrogate its variables
(140-141 / 149-150), build the datetime index and boundary indices
(145-164 / 153-172), run the diagnostic plotter (169 / 177), run the
SHETRAN converter (184 / 192), close the file (194 / 203). -/
inductive Stage where
  | openF
  | interrogate
  | timeLoop
  | plotter
  | converter
  | closeF
deriving DecidableEq, Repr

/-- Which stages read the open NetCDF dataset (`ERA5`): the variable
interrogation, the time loop (`ERA5.variables[time]`), the plotter and
the converter (both are passed `Data = ERA5`). -/
def accessesFile : Stage → Bool
  | Stage.interrogate => true
  | Stage.timeLoop => true
  | Stage.plotter => true
  | Stage.converter => true
  | _ => false

/-- The sequence of stages that execute in one run of either script.
The scripts are straight-line Python with no `try`/`except`, so an
uncaught exception in a stage aborts the run: nothing after a failed
stage executes.  `plotterOk` / `converterOk` say whether the plotter and
converter calls return normally. -/
def scriptRun (plotterOk converterOk : Bool) : List Stage :=
  [Stage.openF, Stage.interrogate, Stage.timeLoop, Stage.plotter]
    ++ (if plotterOk then
          [Stage.converter]
            ++ (if converterOk then [Stage.closeF] else [])
        else [])

/-- The stage trace of a run in which every stage succeeds. -/
def scriptTrace : List Stage := scriptRun true true

/-- Modelled from the spec: the gridded time-series input.  The NetCDF
reader (`netCDF4.Dataset`) and the variable arrays it exposes are not
part of this repository's sources; per the spec the data is a 3D array
indexed by (time-step, latitude, longitude). -/
structure GriddedData where
  nTime : Nat
  nLat : Nat
  nLon : Nat
  val : Nat → Nat → Nat → Rat

/-- Modelled from the spec: `NetCDFToSHETRAN`, defined in the missing
module `CustomFunctionsToSHETRAN` (imported at line 76 / 72, called at
line 184 / 192 but not present under the repository sources).
Per the spec (section 4.2): given the 3D array, the resolved time-index
window `[startIdx, endIdx]`, optionally a single spatial cell (else the
full grid), and a multiplicative unit-conversion factor, produce the
output table whose rows are the time steps of the window and whose
columns are the selected grid cells (one column in single-cell mode, all
`nLat * nLon` cells in map mode), each value scaled by the factor. -/
def netCDFToSHETRAN (g : GriddedData) (startIdx endIdx : Nat)
    (cell : Option (Nat × Nat)) (unitConversion : Rat) : List (List Rat) :=
  (List.range (endIdx - startIdx + 1)).map (fun r =>
    match cell with
    | some ij => [unitConversion * g.val (startIdx + r) ij.1 ij.2]
    | none =>
      (List.range (g.nLat * g.nLon)).map (fun c =>
        unitConversion * g.val (startIdx + r) (c / g.nLon) (c % g.nLon)))

/-- The number of columns the spec assigns to each output mode. -/
def expectedCols (g : GriddedData) (cell : Option (Nat × Nat)) : Nat :=
  match cell with
  | some _ => 1
  | none => g.nLat * g.nLon

/-- A small concrete gridded input (5 time steps, 2 x 3 cells, constant
field) used to witness the shape claims on concrete data. -/
def sampleGrid : GriddedData where
  nTime := 5
  nLat := 2
  nLon := 3
  val := fun _ _ _ => 2

/-! ### Helper lemmas about the reference calendar -/

theorem dateRangeHourly_length (a b : Nat) :
    (dateRangeHourly a b).length = (b - a) / 3600 + 1 := by
  simp [dateRangeHourly]

theorem dateRangeHourly_getElem?_lt (a b i : Nat) (h : i < (b - a) / 3600 + 1) :
    (dateRangeHourly a b)[i]? = some (a + i * 3600) := by
  simp [dateRangeHourly, List.getElem?_range h]

theorem ERA5DateIndex_length : ERA5DateIndex.length = 1069441 := by
  rw [ERA5DateIndex, dateRangeHourly_length]
  rfl

theorem ERA5DateIndexLand_length : ERA5DateIndexLand.length = 1139569 := by
  rw [ERA5DateIndexLand, dateRangeHourly_length]
  rfl

theorem resolveTime_ERA5 (t : Nat) (h : t < ERA5DateIndex.length) :
    resolveTime ERA5DateIndex t = some (epoch1900 + t * 3600) := by
  rw [ERA5DateIndex_length] at h
  exact dateRangeHourly_getElem?_lt epoch1900 bound2022 t h

theorem resolveTime_ERA5Land (t : Nat) (h : t < ERA5DateIndexLand.length) :
    resolveTime ERA5DateIndexLand t = some (epoch1900 + t * 3600) := by
  rw [ERA5DateIndexLand_length] at h
  exact dateRangeHourly_getElem?_lt epoch1900 bound2030 t h

theorem resolveTime_eq_none (cal : List Nat) (t : Nat) (h : cal.length ≤ t) :
    resolveTime cal t = none := by
  simp [resolveTime, List.getElem?_eq_none h]

/-! ### Helper lemmas about boundary-index resolution -/

theorem boundaryIdx_nil (t : Nat) : boundaryIdx [] t = none := rfl

theorem boundaryIdx_cons (a t : Nat) (l : List Nat) :
    boundaryIdx (a :: l) t =
      if a = t then some 0 else Option.map Nat.succ (boundaryIdx l t) := by
  unfold boundaryIdx
  rw [List.length_cons, List.range_succ_eq_map, List.filter_cons,
    List.filter_map]
  have hp : ((fun i => (a :: l)[i]? == some t) 0 = true) ↔ a = t := by simp
  by_cases h : a = t
  · rw [if_pos (hp.mpr h), if_pos h]
    rfl
  · rw [if_neg (fun hc => h (hp.mp hc)), if_neg h, List.head?_map]
    congr 2
    apply List.filter_congr
    intro i _
    simp [Function.comp]

theorem boundaryIdx_not_mem (l : List Nat) (t : Nat) (h : t ∉ l) :
    boundaryIdx l t = none := by
  induction l with
  | nil => rfl
  | cons a l ih =>
    rw [boundaryIdx_cons]
    rw [List.mem_cons, not_or] at h
    rw [if_neg (fun e => h.1 e.symm), ih h.2]
    rfl

theorem boundaryIdx_exact_match (l : List Nat) (t : Nat) (i : Nat)
    (h : boundaryIdx l t = some i) : l[i]? = some t := by
  induction l generalizing i with
  | nil => simp [boundaryIdx_nil] at h
  | cons a l ih =>
    rw [boundaryIdx_cons] at h
    by_cases e : a = t
    · rw [if_pos e] at h
      cases h
      simp [e]
    · rw [if_neg e] at h
      match i, h with
      | Nat.succ j, h =>
        rw [List.getElem?_cons_succ]
        apply ih
        cases hb : boundaryIdx l t with
        | none => rw [hb] at h; cases h
        | some k =>
          rw [hb] at h
          cases h
          rfl
      | 0, h =>
        cases hb : boundaryIdx l t with
        | none => rw [hb] at h; cases h
        | some k => rw [hb] at h; cases h

theorem boundaryIdx_first_match (l : List Nat) (t : Nat) (i : Nat)
    (h : boundaryIdx l t = some i) : ∀ j, j < i → l[j]? ≠ some t := by
  induction l generalizing i with
  | nil => simp [boundaryIdx_nil] at h
  | cons a l ih =>
    rw [boundaryIdx_cons] at h
    by_cases e : a = t
    · rw [if_pos e] at h
      cases h
      intro j hj
      omega
    · rw [if_neg e] at h
      cases hb : boundaryIdx l t with
      | none => rw [hb] at h; cases h
      | some k =>
        rw [hb] at h
        cases h
        intro j hj
        match j with
        | 0 =>
          rw [List.getElem?_cons_zero]
          intro e2
          exact e (Option.some.inj e2)
        | Nat.succ j2 =>
          rw [List.getElem?_cons_succ]
          exact ih k hb j2 (Nat.lt_of_succ_lt_succ hj)

theorem boundaryIdx_of_first (l : List Nat) (t : Nat) (i : Nat)
    (h1 : l[i]? = some t) (h2 : ∀ j, j < i → l[j]? ≠ some t) :
    boundaryIdx l t = some i := by
  induction l generalizing i with
  | nil => simp at h1
  | cons a l ih =>
    rw [boundaryIdx_cons]
    match i with
    | 0 =>
      rw [List.getElem?_cons_zero, Option.some.injEq] at h1
      rw [if_pos h1]
    | Nat.succ j =>
      have ha : a ≠ t := by
        have := h2 0 (Nat.succ_pos j)
        simpa using this
      rw [if_neg ha]
      rw [List.getElem?_cons_succ] at h1
      rw [ih j h1 (fun k hk => by
        have := h2 (k + 1) (Nat.succ_lt_succ hk)
        simpa using this)]
      rfl

/-! ### Helper lemmas about the TimeIndex loop -/

theorem foldl_timeStepFold (cal : List Nat) :
    ∀ (times : List Nat) (acc : List Nat),
      (∀ t ∈ times, t < cal.length) →
      times.foldl (timeStepFold cal) (some acc)
        = some (acc ++ times.map (fun t => (cal[t]?).getD 0)) := by
  intro times
  induction times with
  | nil => intro acc _; simp
  | cons t ts ih =>
    intro acc h
    have ht : t < cal.length := h t (List.mem_cons_self t ts)
    have hstep : timeStepFold cal (some acc) t
        = some (acc ++ [(cal[t]?).getD 0]) := by
      simp [timeStepFold, resolveTime, List.getElem?_eq_getElem ht]
    rw [List.foldl_cons, hstep,
      ih (acc ++ [(cal[t]?).getD 0])
        (fun x hx => h x (List.mem_cons_of_mem t hx))]
    simp

theorem buildTimeIndex_ok (cal times : List Nat)
    (h : ∀ t ∈ times, t < cal.length) :
    buildTimeIndex cal times
      = some (times.map (fun t => (cal[t]?).getD 0)) := by
  rw [buildTimeIndex, foldl_timeStepFold cal times [] h]
  simp

theorem ERA5DateIndexLand_getD (t : Nat) (h : t < ERA5DateIndexLand.length) :
    (ERA5DateIndexLand[t]?).getD 0 = epoch1900 + t * 3600 := by
  have hr := resolveTime_ERA5Land t h
  rw [resolveTime] at hr
  rw [hr]
  rfl

theorem buildTimeIndex_land (times : List Nat)
    (h : ∀ t ∈ times, t < ERA5DateIndexLand.length) :
    buildTimeIndex ERA5DateIndexLand times
      = some (times.map (fun t => epoch1900 + t * 3600)) := by
  rw [buildTimeIndex_ok ERA5DateIndexLand times h]
  exact congrArg some
    (List.map_congr_left (fun t ht => ERA5DateIndexLand_getD t (h t ht)))

/-! ### Helper lemmas about sorted resolved sequences -/

theorem boundaryIdx_headD (l : List Nat) (h : l ≠ []) :
    boundaryIdx l (l.headD 0) = some 0 := by
  cases l with
  | nil => exact absurd rfl h
  | cons a l2 =>
    have hh : (a :: l2).headD 0 = a := rfl
    rw [hh, boundaryIdx_cons, if_pos rfl]

theorem boundaryIdx_getLastD_sorted (l : List Nat) (h : l ≠ [])
    (hs : l.Pairwise (fun a b => a < b)) :
    boundaryIdx l (l.getLastD 0) = some (l.length - 1) := by
  have hn : 0 < l.length := List.length_pos.mpr h
  have hin : l.length - 1 < l.length := by omega
  have hlast : l.getLastD 0 = l[l.length - 1] := by
    rw [List.getLastD_eq_getLast?, List.getLast?_eq_getElem?,
      List.getElem?_eq_getElem hin]
    rfl
  have h1 : l[l.length - 1]? = some l[l.length - 1] :=
    List.getElem?_eq_getElem hin
  rw [hlast]
  apply boundaryIdx_of_first l _ (l.length - 1) h1
  intro j hj
  have hjl : j < l.length := by omega
  rw [List.getElem?_eq_getElem hjl]
  have hlt : l[j] < l[l.length - 1] :=
    (List.pairwise_iff_getElem.mp hs) j (l.length - 1) hjl hin hj
  intro e
  have := Option.some.inj e
  omega

theorem boundaryIdx_dateRangeHourly (a b k : Nat)
    (h : k < (b - a) / 3600 + 1) :
    boundaryIdx (dateRangeHourly a b) (a + k * 3600) = some k := by
  apply boundaryIdx_of_first
  · rw [dateRangeHourly_getElem?_lt a b k h]
  · intro j hj
    rw [dateRangeHourly_getElem?_lt a b j (lt_trans hj h)]
    intro e
    have := Option.some.inj e
    omega

/-! ### Claim theorems -/

/-- Claim C1: for every integer time-step `t` read from the input file's
time variable such that the pre-built hourly reference calendar contains
row `t`, the time-axis resolver returns the absolute timestamp equal to
the epoch 1900-01-01 00:00:00 plus `t` hours — in both scripts'
calendars. -/
theorem claim1_resolver_affine (t : Nat) :
    (t < ERA5DateIndex.length →
      resolveTime ERA5DateIndex t = some (epoch1900 + t * 3600)) ∧
    (t < ERA5DateIndexLand.length →
      resolveTime ERA5DateIndexLand t = some (epoch1900 + t * 3600)) :=
  ⟨resolveTime_ERA5 t, resolveTime_ERA5Land t⟩

/-- Witness for C1 at the concrete in-range time-step 876576. -/
theorem claim1_resolver_affine_witness :
    resolveTime ERA5DateIndex 876576 = some (epoch1900 + 876576 * 3600) :=
  (claim1_resolver_affine 876576).1 (by rw [ERA5DateIndex_length]; decide)

/-- Claim C2, counterexample: resolving time-step 876600 does NOT yield
2000-01-01 00:00:00.  876600 hours is 36525 days, but only 36524 days lie
between 1900-01-01 and 2000-01-01 (1900 is not a Gregorian leap year). -/
theorem claim2_counterexample :
    resolveTime ERA5DateIndex 876600 ≠ some (timestampOf 2000 1 1 0) := by
  rw [resolveTime_ERA5 876600 (by rw [ERA5DateIndex_length]; decide)]
  intro e
  exact absurd (Option.some.inj e) (by decide)

/-- Claim C2 as amended: resolving time-step 876600 yields
2000-01-02 00:00:00, and the time-step that resolves to
2000-01-01 00:00:00 is 876576. -/
theorem claim2_amended :
    resolveTime ERA5DateIndex 876600 = some (timestampOf 2000 1 2 0) ∧
    resolveTime ERA5DateIndex 876576 = some (timestampOf 2000 1 1 0) := by
  constructor
  · rw [resolveTime_ERA5 876600 (by rw [ERA5DateIndex_length]; decide)]
    exact congrArg some (by decide)
  · rw [resolveTime_ERA5 876576 (by rw [ERA5DateIndex_length]; decide)]
    exact congrArg some (by decide)

/-- Claim C3: when every time-step of the file fits inside the pre-built
reference calendar, the `TimeIndex` loop resolves every entry (it neither
truncates nor fails: the result exists and has exactly one timestamp per
time-step); and without that precondition, a time-step beyond the
calendar's fixed upper bound (2022-01-01 resp. 2030-01-01, i.e. at or
past the calendar length) makes the resolver's lookup fail rather than
resolve. -/
theorem claim3_coverage_no_truncation (times : List Nat)
    (h1 : ∀ t ∈ times, t < ERA5DateIndex.length)
    (h2 : ∀ t ∈ times, t < ERA5DateIndexLand.length) :
    ((buildTimeIndex ERA5DateIndex times).isSome = true ∧
      ((buildTimeIndex ERA5DateIndex times).getD []).length
        = times.length) ∧
    ((buildTimeIndex ERA5DateIndexLand times).isSome = true ∧
      ((buildTimeIndex ERA5DateIndexLand times).getD []).length
        = times.length) ∧
    (∀ t, ERA5DateIndex.length ≤ t → resolveTime ERA5DateIndex t = none) ∧
    (∀ t, ERA5DateIndexLand.length ≤ t →
      resolveTime ERA5DateIndexLand t = none) := by
  refine ⟨?_, ?_, ?_, ?_⟩
  · rw [buildTimeIndex_ok ERA5DateIndex times h1]
    simp
  · rw [buildTimeIndex_ok ERA5DateIndexLand times h2]
    simp
  · exact fun t ht => resolveTime_eq_none _ t ht
  · exact fun t ht => resolveTime_eq_none _ t ht

/-- Witness for C3: the concrete file time-steps 0 and 876576 resolve in
both calendars, and the first out-of-calendar time-steps fail. -/
theorem claim3_coverage_no_truncation_witness :
    (buildTimeIndex ERA5DateIndex [0, 876576]).isSome = true ∧
    resolveTime ERA5DateIndex 1069441 = none ∧
    resolveTime ERA5DateIndexLand 1139569 = none := by
  have h1 : ∀ t ∈ [0, 876576], t < ERA5DateIndex.length := by
    rw [ERA5DateIndex_length]
    decide
  have h2 : ∀ t ∈ [0, 876576], t < ERA5DateIndexLand.length := by
    rw [ERA5DateIndexLand_length]
    decide
  have h := claim3_coverage_no_truncation [0, 876576] h1 h2
  exact ⟨h.1.1, h.2.2.1 1069441 (by rw [ERA5DateIndex_length]),
    h.2.2.2 1139569 (by rw [ERA5DateIndexLand_length])⟩

/-- Claim C4: requesting a boundary timestamp absent from the resolved
sequence fails with a `LookupError`-class condition (`none`, modelling
the `IndexError` of `tolist()[0]` on an empty match list); and resolution
never silently returns a nearest-match index — any returned index holds
exactly the requested timestamp. -/
theorem claim4_boundary_lookup_exact (l : List Nat) (t : Nat) :
    (t ∉ l → boundaryIdx l t = none) ∧
    (∀ i, boundaryIdx l t = some i → l[i]? = some t) :=
  ⟨boundaryIdx_not_mem l t, fun i h => boundaryIdx_exact_match l t i h⟩

/-- Witness for C4: 15 is absent from [10, 20], and the lookup fails. -/
theorem claim4_boundary_lookup_exact_witness :
    boundaryIdx [10, 20] 15 = none :=
  (claim4_boundary_lookup_exact [10, 20] 15).1 (by decide)

/-- Claim C5: on a resolved timestamp sequence of consecutive hourly
timestamps starting at `t0` (with at least three entries), requesting the
boundary timestamp `t0 + 2` hours returns the integer index 2. -/
theorem claim5_boundary_third_entry (t0 m : Nat) (h : 2 ≤ m) :
    boundaryIdx (dateRangeHourly t0 (t0 + m * 3600)) (t0 + 2 * 3600)
      = some 2 := by
  apply boundaryIdx_dateRangeHourly
  have he : t0 + m * 3600 - t0 = m * 3600 := by omega
  rw [he, Nat.mul_div_cancel m (by omega : 0 < 3600)]
  omega

/-- Witness for C5 at `t0 = 0`, three entries. -/
theorem claim5_boundary_third_entry_witness :
    boundaryIdx (dateRangeHourly 0 (0 + 2 * 3600)) (0 + 2 * 3600)
      = some 2 :=
  claim5_boundary_third_entry 0 2 (Nat.le_refl 2)

/-- Claim C8: time-step resolution is deterministic and idempotent — one
stateful resolution step leaves the reference calendar untouched, so
resolving the same in-range time-step again yields the same output
timestamp. -/
theorem claim8_resolution_idempotent (s : ResolverState) (t : Nat)
    (h : t < s.cal.length) :
    (resolveStep s t).2 = (resolveStep (resolveStep s t).1 t).2 ∧
    ((resolveStep s t).1).cal = s.cal := by
  obtain ⟨v, hv⟩ : ∃ v, resolveTime s.cal t = some v := by
    simp [resolveTime, List.getElem?_eq_getElem h]
  simp [resolveStep, hv]

/-- Witness for C8 on a concrete two-entry calendar at time-step 1. -/
theorem claim8_resolution_idempotent_witness :
    (resolveStep ⟨[10, 20], []⟩ 1).2
      = (resolveStep (resolveStep ⟨[10, 20], []⟩ 1).1 1).2 ∧
    ((resolveStep ⟨[10, 20], []⟩ 1).1).cal = [10, 20] :=
  claim8_resolution_idempotent ⟨[10, 20], []⟩ 1 (by decide)

/-- Claim C6 (spec-modelled: `NetCDFToSHETRAN` lives in the missing module
`CustomFunctionsToSHETRAN`): the output table has exactly
`EndIdx - StartIdx + 1` rows, and every row has 1 column in single-cell
mode or `nLat * nLon` columns (the grid cells of the window) in map
mode. -/
theorem claim6_output_shape (g : GriddedData) (startIdx endIdx : Nat)
    (cell : Option (Nat × Nat)) (u : Rat) :
    (netCDFToSHETRAN g startIdx endIdx cell u).length
      = endIdx - startIdx + 1 ∧
    (netCDFToSHETRAN g startIdx endIdx cell u).all
      (fun row => row.length == expectedCols g cell) = true := by
  constructor
  · simp [netCDFToSHETRAN]
  · rw [List.all_eq_true]
    intro row hrow
    rw [netCDFToSHETRAN] at hrow
    obtain ⟨r, _, hr⟩ := List.mem_map.mp hrow
    cases cell with
    | some ij => simp [← hr, expectedCols]
    | none => simp [← hr, expectedCols]

/-- Witness for C6 on the sample grid, map mode, window [1, 3]. -/
theorem claim6_output_shape_witness :
    (netCDFToSHETRAN sampleGrid 1 3 none 1000).length = 3 - 1 + 1 ∧
    (netCDFToSHETRAN sampleGrid 1 3 none 1000).all
      (fun row => row.length == expectedCols sampleGrid none) = true :=
  claim6_output_shape sampleGrid 1 3 none 1000

/-- Claim C7, counterexample: in a run in which the plotter fails, the
conversion stage does not execute — the straight-line script has no
exception handling, so the plotter's uncaught exception aborts the run
before `NetCDFToSHETRAN` is called. -/
theorem claim7_counterexample :
    Stage.converter ∉ scriptRun false true := by decide

/-- Claim C7 as amended: the plotter does run strictly before and
independently of the conversion stage (position 3 versus position 4 of
the run), but a plotter failure aborts the run before conversion: the
conversion stage executes exactly in the runs where the plotter
succeeds. -/
theorem claim7_plotter_gates_converter (plotterOk converterOk : Bool) :
    (Stage.converter ∈ scriptRun plotterOk converterOk
      ↔ plotterOk = true) ∧
    List.indexOf Stage.plotter (scriptRun plotterOk converterOk) = 3 ∧
    (Stage.converter ∈ scriptRun plotterOk converterOk →
      List.indexOf Stage.converter (scriptRun plotterOk converterOk)
        = 4) := by
  cases plotterOk <;> cases converterOk <;> exact ⟨by decide, by decide, by decide⟩

/-- Witness for C7's amended statement on the all-success run. -/
theorem claim7_plotter_gates_converter_witness :
    Stage.converter ∈ scriptRun true true ∧
    List.indexOf Stage.plotter (scriptRun true true) = 3 ∧
    List.indexOf Stage.converter (scriptRun true true) = 4 :=
  ⟨((claim7_plotter_gates_converter true true).1).mpr rfl,
    (claim7_plotter_gates_converter true true).2.1,
    (claim7_plotter_gates_converter true true).2.2
      (((claim7_plotter_gates_converter true true).1).mpr rfl)⟩

/-- Claim C9: in the run where every stage completes, the input file is
opened exactly once, as the very first event; it is released exactly
once, as the very last event; the plotting and conversion stages do
execute; and every stage that reads the file sits strictly between the
open and the close — so the file is open throughout both stages and is
never accessed after release. -/
theorem claim9_file_lifecycle :
    scriptTrace.head? = some Stage.openF ∧
    scriptTrace.getLast? = some Stage.closeF ∧
    scriptTrace.count Stage.openF = 1 ∧
    scriptTrace.count Stage.closeF = 1 ∧
    Stage.plotter ∈ scriptTrace ∧
    Stage.converter ∈ scriptTrace ∧
    (∀ i, i < scriptTrace.length →
      accessesFile (scriptTrace.getD i Stage.openF) = true →
      0 < i ∧ i < scriptTrace.length - 1) := by
  decide

/-- Claim C10: in the Land variant the boundary timestamps are taken from
the resolved sequence itself; for strictly increasing file time-steps
covered by the calendar, resolving the first resolved timestamp yields
`StartIdx = 0` and resolving the last yields
`EndIdx = length - 1`; and in general, a boundary timestamp occurring
more than once resolves to the first (smallest) matching index. -/
theorem claim10_self_boundaries (times l : List Nat)
    (hne : times ≠ [])
    (hmono : times.Chain' (fun a b => a < b))
    (hcov : ∀ t ∈ times, t < ERA5DateIndexLand.length)
    (hres : buildTimeIndex ERA5DateIndexLand times = some l) :
    boundaryIdx l (l.headD 0) = some 0 ∧
    boundaryIdx l (l.getLastD 0) = some (l.length - 1) ∧
    (∀ seq t i, boundaryIdx seq t = some i →
      ∀ j, j < i → seq[j]? ≠ some t) := by
  have hl : l = times.map (fun t => epoch1900 + t * 3600) := by
    have hb := buildTimeIndex_land times hcov
    rw [hres] at hb
    exact Option.some.inj hb
  have hlne : l ≠ [] := by
    rw [hl]
    simpa using hne
  have hsorted : l.Pairwise (fun a b => a < b) := by
    rw [hl]
    have hp : times.Pairwise (fun a b => a < b) :=
      List.chain'_iff_pairwise.mp hmono
    exact List.Pairwise.map _ (fun a b hab => by omega) hp
  exact ⟨boundaryIdx_headD l hlne,
    boundaryIdx_getLastD_sorted l hlne hsorted,
    fun seq t i h j hj => boundaryIdx_first_match seq t i h j hj⟩

/-- Witness for C10 on the concrete strictly increasing time-steps
[0, 1, 2] resolved against the Land calendar. -/
theorem claim10_self_boundaries_witness :
    boundaryIdx
        [epoch1900 + 0 * 3600, epoch1900 + 1 * 3600, epoch1900 + 2 * 3600]
        (List.headD
          [epoch1900 + 0 * 3600, epoch1900 + 1 * 3600,
            epoch1900 + 2 * 3600] 0)
      = some 0 ∧
    boundaryIdx
        [epoch1900 + 0 * 3600, epoch1900 + 1 * 3600, epoch1900 + 2 * 3600]
        (List.getLastD
          [epoch1900 + 0 * 3600, epoch1900 + 1 * 3600,
            epoch1900 + 2 * 3600] 0)
      = some
          ([epoch1900 + 0 * 3600, epoch1900 + 1 * 3600,
            epoch1900 + 2 * 3600].length - 1) := by
  have hcov : ∀ t ∈ [0, 1, 2], t < ERA5DateIndexLand.length := by
    rw [ERA5DateIndexLand_length]
    decide
  have hres := buildTimeIndex_land [0, 1, 2] hcov
  simp only [List.map_cons, List.map_nil] at hres
  have hmono : List.Chain' (fun a b => a < b) [0, 1, 2] := by
    simp [List.chain'_cons]
  have h := claim10_self_boundaries [0, 1, 2]
    [epoch1900 + 0 * 3600, epoch1900 + 1 * 3600, epoch1900 + 2 * 3600]
    (by decide) hmono hcov hres
  exact ⟨h.1, h.2.1⟩

end ERA5ToSHETRAN
